import Mathlib

/-!
Verification of `main.py` from the commit-msg-ai repository: a command-line
tool that generates a commit message for the staged git changes via an AI
service and runs an accept / remake / quit loop before committing.

The program is shallowly embedded as pure functions over an explicit
environment `Env` describing the external collaborators (git subprocess
results, the AI service, the commit command) and a list of user input
lines.  A run produces a trace of externally observable events
(subprocess invocations, service calls, writes to stdout / stderr) plus
an outcome (exit code, or `blocked` when the input lines run out and
`input()` would not return a line).
-/

instance {ε α : Type} [DecidableEq ε] [DecidableEq α] : DecidableEq (Except ε α)
  | Except.ok x, Except.ok y => decidable_of_iff (x = y) (by simp)
  | Except.ok _, Except.error _ => isFalse (by simp)
  | Except.error _, Except.ok _ => isFalse (by simp)
  | Except.error x, Except.error y => decidable_of_iff (x = y) (by simp)

/-- Exceptions raised by the program.  `gitOperationError`,
`aiOperationError` and `userAbortError` are the custom classes defined in
`main.py`; `openAIError` is the library's `OpenAIError`, which line 80 of
the source re-raises (it is not one of the custom classes). -/
inductive Exc where
  | gitOperationError (msg : String)
  | aiOperationError (msg : String)
  | userAbortError (msg : String)
  | openAIError (msg : String)
  deriving DecidableEq, Repr

/-- Externally observable events of a run. -/
inductive Event where
  | fetchDiff
  | fetchBranch
  | serviceCall (promptInput : String)
  | gitCommit (message : String)
  | printOut (s : String)
  | printErr (s : String)
  deriving DecidableEq, Repr

/-- Result of `commit_process`: normal return, an exception, or blocked
waiting for user input that never arrives. -/
inductive LoopResult where
  | ok
  | exc (e : Exc)
  | blocked
  deriving DecidableEq, Repr

/-- Outcome of the whole process. -/
inductive Outcome where
  | exited (code : Nat)
  | blocked
  deriving DecidableEq, Repr

/-- The external world: results of the git subprocess invocations
(`Except.error` carries the diagnostic surfaced for a non-zero exit, i.e.
`e.stderr or e`), the AI service response as a function of the composed
input string and of the zero-based index of the call within the run, and
the result of `git commit -m`. -/
structure Env where
  rev_parse_ok : Bool
  git_diff_cached : Except String String
  git_branch : Except String String
  service : String → Nat → Except String String
  git_commit : String → Except String Unit

/-- Python's `str.strip()` with no argument: remove leading and trailing
whitespace.  (Defined over the character list so that it reduces in the
kernel; `String.trim` does not.) -/
def py_strip (s : String) : String :=
  String.mk (((s.data.dropWhile Char.isWhitespace).reverse.dropWhile Char.isWhitespace).reverse)

/-- Python's `str.upper()` (on the ASCII fragment): uppercase every
character. -/
def py_upper (s : String) : String :=
  String.mk (s.data.map Char.toUpper)

/-- `get_staged_changes` (main.py lines 48-60): `git diff --cached`,
stdout trimmed; on `CalledProcessError` raises `GitOperationError`. -/
def get_staged_changes (env : Env) : Except Exc String :=
  match env.git_diff_cached with
  | Except.ok out => Except.ok (py_strip out)
  | Except.error e => Except.error (Exc.gitOperationError ("Error getting git diff: " ++ e))

/-- `get_git_branch` (main.py lines 34-46): `git branch --show-current`,
stdout trimmed; on `CalledProcessError` raises `GitOperationError`. -/
def get_git_branch (env : Env) : Except Exc String :=
  match env.git_branch with
  | Except.ok out => Except.ok (py_strip out)
  | Except.error e => Except.error (Exc.gitOperationError ("Error getting git branch: " ++ e))

/-- The composed input string sent to the service (main.py line 70). -/
def prompt_input_of (changes branch_name : String) : String :=
  "Git Diff:\n" ++ changes ++ "\n\nBranch: " ++ branch_name

/-- `generate_commit_msg` (main.py lines 62-80).  The Python annotation is
`str | None`, so the success payload is modelled as `Option String`; the
only `return` statement (line 78) produces a string.  The second component
is the log of input strings sent to the external service (one entry per
service call).  Note line 80 wraps a service failure in `OpenAIError`, not
in the custom `AIOperationError`. -/
def generate_commit_msg (service : String → Except String String)
    (changes branch_name : String) : Except Exc (Option String) × List String :=
  if changes = "" then
    (Except.error (Exc.aiOperationError
      "No changes staged to commit. Nothing to generate a message for."), [])
  else
    let prompt_input := prompt_input_of changes branch_name
    match service prompt_input with
    | Except.ok output_text => (Except.ok (some (py_strip output_text)), [prompt_input])
    | Except.error e =>
        (Except.error (Exc.openAIError ("Error generating commit message from AI: " ++ e)),
         [prompt_input])

/-- Python's `str` coercion applied when a value that might be `None` is
printed or passed on; `generate_commit_msg` provably never produces
`none`, so the `none` branch is dead code. -/
def pyStr : Option String → String
  | some s => s
  | none => "None"

/-- `.strip().upper()` applied to a raw input line (main.py line 94). -/
def normalize_input (line : String) : String :=
  py_upper (py_strip line)

/-- `user_input in ("Y", "R", "Q")` (main.py line 96). -/
def is_valid_choice (s : String) : Bool :=
  s == "Y" || s == "R" || s == "Q"

/-- The banner printed on each iteration of `prompt_user`
(main.py lines 89-93). -/
def banner_lines (message : String) : List String :=
  ["\nGenerated commit message:",
   "=========================================",
   message,
   "=========================================",
   "Are you sure you want to accept this?\n"]

/-- The prompt string passed to `input()` (main.py line 94). -/
def input_prompt : String :=
  "Yes (Y) Remake (R) Quit (Q)  "

/-- `prompt_user` (main.py lines 82-99) over a list of pending input
lines.  Returns the lines written to stdout and, when a valid choice was
read, the normalized choice together with the unconsumed input lines;
`none` when the input lines run out first. -/
def prompt_user (message : String) : List String → List String × Option (String × List String)
  | [] => (banner_lines message ++ [input_prompt], none)
  | line :: rest =>
    let user_input := normalize_input line
    if is_valid_choice user_input then
      (banner_lines message ++ [input_prompt], some (user_input, rest))
    else
      let next := prompt_user message rest
      (banner_lines message ++ [input_prompt, "Invalid input. Please enter Y, R, or Q."] ++ next.1,
       next.2)

/-- `perform_git_commit` (main.py lines 101-112). -/
def perform_git_commit (env : Env) (message : String) : List Event × Except Exc Bool :=
  match env.git_commit message with
  | Except.ok _ => ([Event.gitCommit message], Except.ok true)
  | Except.error e =>
      ([Event.gitCommit message],
       Except.error (Exc.gitOperationError ("\nError during git commit: " ++ e)))

/-- The `while not accepted` loop of `commit_process` (main.py lines
118-129).  `callIdx` numbers the service calls made so far in the run.
The loop is unbounded in the source; here it runs on fuel, and
`commit_process` supplies `inputs.length + 1`, which always suffices
because every iteration consumes at least one input line. -/
def commit_loop (env : Env) (staged_changes current_branch : String) :
    Nat → List String → Nat → List Event × LoopResult
  | 0, _, _ => ([], LoopResult.blocked)
  | fuel + 1, inputs, callIdx =>
    let pre : List Event := [Event.printOut "\nGenerating commit message..."]
    match generate_commit_msg (fun p => env.service p callIdx) staged_changes current_branch with
    | (Except.error e, calls) =>
        (pre ++ calls.map Event.serviceCall, LoopResult.exc e)
    | (Except.ok v, calls) =>
        let generated_message := pyStr v
        let pu := prompt_user generated_message inputs
        let tr := pre ++ calls.map Event.serviceCall ++ pu.1.map Event.printOut
        match pu.2 with
        | none => (tr, LoopResult.blocked)
        | some (user_choice, rest) =>
          if user_choice = "Y" then
            let pc := perform_git_commit env generated_message
            match pc.2 with
            | Except.ok _ =>
                (tr ++ pc.1 ++ [Event.printOut "\nCommit successful!"], LoopResult.ok)
            | Except.error e => (tr ++ pc.1, LoopResult.exc e)
          else if user_choice = "Q" then
            (tr, LoopResult.exc (Exc.userAbortError "Aborting."))
          else
            let next := commit_loop env staged_changes current_branch fuel rest (callIdx + 1)
            (tr ++ next.1, next.2)

/-- `commit_process` (main.py lines 114-129): snapshot the staged diff and
the branch once, then run the generate / prompt loop. -/
def commit_process (env : Env) (inputs : List String) : List Event × LoopResult :=
  match get_staged_changes env with
  | Except.error e => ([Event.fetchDiff], LoopResult.exc e)
  | Except.ok staged_changes =>
    match get_git_branch env with
    | Except.error e => ([Event.fetchDiff, Event.fetchBranch], LoopResult.exc e)
    | Except.ok current_branch =>
      let next := commit_loop env staged_changes current_branch (inputs.length + 1) inputs 0
      (Event.fetchDiff :: Event.fetchBranch :: next.1, next.2)

/-- The top-level `__main__` block (main.py lines 131-158):
`git rev-parse --is-inside-work-tree` guard, then `commit_process` with
the exception handlers in source order; `OpenAIError` matches none of the
three custom handlers and falls through to the generic `except Exception`
handler. -/
def main_program (env : Env) (inputs : List String) : List Event × Outcome :=
  if env.rev_parse_ok then
    let run := commit_process env inputs
    match run.2 with
    | LoopResult.ok => (run.1, Outcome.exited 0)
    | LoopResult.exc (Exc.gitOperationError m) =>
        (run.1 ++ [Event.printErr ("\nGit operation failed: " ++ m)], Outcome.exited 1)
    | LoopResult.exc (Exc.aiOperationError m) =>
        (run.1 ++ [Event.printErr ("\nAI operation failed: " ++ m)], Outcome.exited 1)
    | LoopResult.exc (Exc.userAbortError m) =>
        (run.1 ++ [Event.printOut m], Outcome.exited 0)
    | LoopResult.exc (Exc.openAIError m) =>
        (run.1 ++ [Event.printErr ("An unexpected error has occured: " ++ m)], Outcome.exited 1)
    | LoopResult.blocked => (run.1, Outcome.blocked)
  else
    ([Event.printErr "\nNot in a git repository. Aborting."], Outcome.exited 1)

/-- The valid decisions extracted, in order, from a list of raw input
lines: the decisions the interaction loop will actually consume. -/
def decisionsOf (inputs : List String) : List String :=
  (inputs.map normalize_input).filter is_valid_choice

@[simp] def Event.isCommit : Event → Bool
  | Event.gitCommit _ => true
  | _ => false

@[simp] def Event.isService : Event → Bool
  | Event.serviceCall _ => true
  | _ => false

@[simp] def Event.isFetch : Event → Bool
  | Event.fetchDiff => true
  | Event.fetchBranch => true
  | _ => false

@[simp] def Event.isErr : Event → Bool
  | Event.printErr _ => true
  | _ => false

/-! ## Concrete environments used by witnesses and counterexamples -/

/-- Not inside a git work tree: `git rev-parse --is-inside-work-tree`
exits non-zero. -/
def env_no_repo : Env :=
  { rev_parse_ok := false
    git_diff_cached := Except.ok "+x"
    git_branch := Except.ok "main"
    service := fun _ _ => Except.ok "feat: x - main"
    git_commit := fun _ => Except.ok () }

/-- A deterministic stand-in generator that answers differently on each
call of the run. -/
def sample_outs : Nat → String
  | 0 => "feat: first try - main"
  | 1 => "feat: second try - main"
  | _ => "feat: later try - main"

/-- A healthy repository with staged changes and a working service. -/
def env_ok : Env :=
  { rev_parse_ok := true
    git_diff_cached := Except.ok "+x\n"
    git_branch := Except.ok "main\n"
    service := fun _ i => Except.ok (sample_outs i)
    git_commit := fun _ => Except.ok () }

/-- Staged changes present, but every AI service call fails
(e.g. an authentication failure). -/
def env_auth_failure : Env :=
  { rev_parse_ok := true
    git_diff_cached := Except.ok "+x"
    git_branch := Except.ok "main"
    service := fun _ _ => Except.error "401 Unauthorized"
    git_commit := fun _ => Except.ok () }

/-! ## Helper lemmas -/

lemma is_valid_choice_cases {s : String} (h : is_valid_choice s = true) :
    s = "Y" ∨ s = "R" ∨ s = "Q" := by
  simp only [is_valid_choice, Bool.or_eq_true, beq_iff_eq] at h
  tauto

lemma decisionsOf_nil : decisionsOf [] = [] := rfl

lemma decisionsOf_cons (line : String) (rest : List String) :
    decisionsOf (line :: rest)
      = if is_valid_choice (normalize_input line) then
          normalize_input line :: decisionsOf rest
        else decisionsOf rest := by
  by_cases hv : is_valid_choice (normalize_input line) = true <;>
    simp [decisionsOf, hv]

lemma prompt_user_valid_head (message line : String) (rest : List String)
    (hv : is_valid_choice (normalize_input line) = true) :
    prompt_user message (line :: rest)
      = (banner_lines message ++ [input_prompt], some (normalize_input line, rest)) := by
  simp [prompt_user, hv]

lemma prompt_user_invalid_head (message line : String) (rest : List String)
    (hv : is_valid_choice (normalize_input line) = false) :
    prompt_user message (line :: rest)
      = (banner_lines message ++
           [input_prompt, "Invalid input. Please enter Y, R, or Q."] ++
           (prompt_user message rest).1,
         (prompt_user message rest).2) := by
  simp [prompt_user, hv]

lemma prompt_user_of_decisions_nil (message : String) :
    ∀ inputs, decisionsOf inputs = [] → (prompt_user message inputs).2 = none := by
  intro inputs
  induction inputs with
  | nil => intro _; simp [prompt_user]
  | cons line rest ih =>
    intro h
    rw [decisionsOf_cons] at h
    by_cases hv : is_valid_choice (normalize_input line) = true
    · rw [if_pos hv] at h; exact absurd h (by simp)
    · rw [Bool.not_eq_true] at hv
      rw [if_neg (by simp [hv])] at h
      rw [prompt_user_invalid_head message line rest hv]
      exact ih h

lemma prompt_user_of_decisions_cons (message : String) :
    ∀ inputs d ds, decisionsOf inputs = d :: ds →
      ∃ rest, (prompt_user message inputs).2 = some (d, rest) ∧
        decisionsOf rest = ds ∧ rest.length < inputs.length := by
  intro inputs
  induction inputs with
  | nil => intro d ds h; exact absurd h (by simp [decisionsOf])
  | cons line rest ih =>
    intro d ds h
    rw [decisionsOf_cons] at h
    by_cases hv : is_valid_choice (normalize_input line) = true
    · rw [if_pos hv] at h
      obtain ⟨h1, h2⟩ := List.cons.injEq .. ▸ h
      refine ⟨rest, ?_, h2, Nat.lt_succ_self _⟩
      rw [prompt_user_valid_head message line rest hv, h1]
    · rw [Bool.not_eq_true] at hv
      rw [if_neg (by simp [hv])] at h
      obtain ⟨r, hr, hdec, hlen⟩ := ih d ds h
      exact ⟨r, by rw [prompt_user_invalid_head message line rest hv]; exact hr,
             hdec, Nat.lt_succ_of_lt hlen⟩

lemma generate_calls (service : String → Except String String) (s b : String) :
    (generate_commit_msg service s b).2 = [] ∨
      (generate_commit_msg service s b).2 = [prompt_input_of s b] := by
  by_cases hs : s = ""
  · simp [generate_commit_msg, hs]
  · simp only [generate_commit_msg, hs, if_neg, ite_false]
    cases service (prompt_input_of s b) <;> simp

lemma generate_ok (service : String → Except String String) (s b raw : String)
    (hs : s ≠ "") (hsvc : service (prompt_input_of s b) = Except.ok raw) :
    generate_commit_msg service s b
      = (Except.ok (some (py_strip raw)), [prompt_input_of s b]) := by
  simp [generate_commit_msg, hs, hsvc]

lemma filter_map_printOut (p : Event → Bool) (hp : ∀ s, p (Event.printOut s) = false)
    (l : List String) : (l.map Event.printOut).filter p = [] := by
  induction l with
  | nil => rfl
  | cons a t ih => simp [hp, ih]

lemma filter_map_serviceCall (p : Event → Bool) (hp : ∀ s, p (Event.serviceCall s) = false)
    (l : List String) : (l.map Event.serviceCall).filter p = [] := by
  induction l with
  | nil => rfl
  | cons a t ih => simp [hp, ih]

lemma commit_loop_trace_shape (env : Env) (s b : String) :
    ∀ fuel inputs c,
      ((commit_loop env s b fuel inputs c).1.filter Event.isFetch = []) ∧
      ((commit_loop env s b fuel inputs c).1.filter Event.isErr = []) ∧
      (∃ k, (commit_loop env s b fuel inputs c).1.filter Event.isService
          = List.replicate k (Event.serviceCall (prompt_input_of s b))) ∧
      ((commit_loop env s b fuel inputs c).2 = LoopResult.ok →
        ∃ msg, Event.gitCommit msg ∈ (commit_loop env s b fuel inputs c).1 ∧
          env.git_commit msg = Except.ok ()) := by
  intro fuel
  induction fuel with
  | zero =>
    intro inputs c
    exact ⟨rfl, rfl, ⟨0, rfl⟩, by intro h; simp [commit_loop] at h⟩
  | succ f ih =>
    intro inputs c
    have hcalls := generate_calls (fun p => env.service p c) s b
    rcases hgen : generate_commit_msg (fun p => env.service p c) s b with ⟨res, calls⟩
    rw [hgen] at hcalls
    simp only at hcalls
    simp only [commit_loop]
    rw [hgen]
    cases res with
    | error e =>
      dsimp only
      refine ⟨?_, ?_, ?_, by intro h; simp at h⟩
      · rcases hcalls with h | h <;>
          simp [h, filter_map_serviceCall Event.isFetch (fun _ => rfl)]
      · rcases hcalls with h | h <;>
          simp [h, filter_map_serviceCall Event.isErr (fun _ => rfl)]
      · rcases hcalls with h | h
        · exact ⟨0, by simp [h]⟩
        · exact ⟨1, by simp [h, List.replicate]⟩
    | ok v =>
      dsimp only
      rcases hpu : (prompt_user (pyStr v) inputs).2 with _ | ⟨choice, rest⟩
      · dsimp only
        refine ⟨?_, ?_, ?_, by intro h; simp at h⟩
        · rcases hcalls with h | h <;>
            simp [h, filter_map_serviceCall Event.isFetch (fun _ => rfl),
              filter_map_printOut Event.isFetch (fun _ => rfl)]
        · rcases hcalls with h | h <;>
            simp [h, filter_map_serviceCall Event.isErr (fun _ => rfl),
              filter_map_printOut Event.isErr (fun _ => rfl)]
        · rcases hcalls with h | h
          · exact ⟨0, by simp [h, filter_map_printOut Event.isService (fun _ => rfl)]⟩
          · exact ⟨1, by simp [h, filter_map_printOut Event.isService (fun _ => rfl),
              List.replicate]⟩
      · dsimp only
        by_cases hY : choice = "Y"
        · rw [if_pos hY]
          cases hc : env.git_commit (pyStr v) with
          | ok u =>
            cases u
            simp only [perform_git_commit]
            rw [hc]
            dsimp only
            refine ⟨?_, ?_, ?_, ?_⟩
            · rcases hcalls with h | h <;>
                simp [h, filter_map_serviceCall Event.isFetch (fun _ => rfl),
                  filter_map_printOut Event.isFetch (fun _ => rfl)]
            · rcases hcalls with h | h <;>
                simp [h, filter_map_serviceCall Event.isErr (fun _ => rfl),
                  filter_map_printOut Event.isErr (fun _ => rfl)]
            · rcases hcalls with h | h
              · exact ⟨0, by simp [h, filter_map_printOut Event.isService (fun _ => rfl)]⟩
              · exact ⟨1, by simp [h, filter_map_printOut Event.isService (fun _ => rfl),
                  List.replicate]⟩
            · intro _
              exact ⟨pyStr v, by simp, hc⟩
          | error e =>
            simp only [perform_git_commit]
            rw [hc]
            dsimp only
            refine ⟨?_, ?_, ?_, by intro h; simp at h⟩
            · rcases hcalls with h | h <;>
                simp [h, filter_map_serviceCall Event.isFetch (fun _ => rfl),
                  filter_map_printOut Event.isFetch (fun _ => rfl)]
            · rcases hcalls with h | h <;>
                simp [h, filter_map_serviceCall Event.isErr (fun _ => rfl),
                  filter_map_printOut Event.isErr (fun _ => rfl)]
            · rcases hcalls with h | h
              · exact ⟨0, by simp [h, filter_map_printOut Event.isService (fun _ => rfl)]⟩
              · exact ⟨1, by simp [h, filter_map_printOut Event.isService (fun _ => rfl),
                  List.replicate]⟩
        · rw [if_neg hY]
          by_cases hQ : choice = "Q"
          · rw [if_pos hQ]
            dsimp only
            refine ⟨?_, ?_, ?_, by intro h; simp at h⟩
            · rcases hcalls with h | h <;>
                simp [h, filter_map_serviceCall Event.isFetch (fun _ => rfl),
                  filter_map_printOut Event.isFetch (fun _ => rfl)]
            · rcases hcalls with h | h <;>
                simp [h, filter_map_serviceCall Event.isErr (fun _ => rfl),
                  filter_map_printOut Event.isErr (fun _ => rfl)]
            · rcases hcalls with h | h
              · exact ⟨0, by simp [h, filter_map_printOut Event.isService (fun _ => rfl)]⟩
              · exact ⟨1, by simp [h, filter_map_printOut Event.isService (fun _ => rfl),
                  List.replicate]⟩
          · rw [if_neg hQ]
            dsimp only
            obtain ⟨ih1, ih2, ⟨k, ih3⟩, ih4⟩ := ih rest (c + 1)
            refine ⟨?_, ?_, ?_, ?_⟩
            · rcases hcalls with h | h <;>
                simp [h, filter_map_serviceCall Event.isFetch (fun _ => rfl),
                  filter_map_printOut Event.isFetch (fun _ => rfl), ih1]
            · rcases hcalls with h | h <;>
                simp [h, filter_map_serviceCall Event.isErr (fun _ => rfl),
                  filter_map_printOut Event.isErr (fun _ => rfl), ih2]
            · rcases hcalls with h | h
              · exact ⟨k, by
                  simp [h, filter_map_printOut Event.isService (fun _ => rfl), ih3]⟩
              · exact ⟨k + 1, by
                  simp [h, filter_map_printOut Event.isService (fun _ => rfl), ih3,
                    List.replicate_succ, List.replicate]⟩
            · intro h
              obtain ⟨msg, hmem, hcommit⟩ := ih4 h
              exact ⟨msg, by simp [hmem], hcommit⟩

lemma commit_loop_accept (env : Env) (s b : String) (outs : Nat → String)
    (hs : s ≠ "")
    (hSvc : ∀ i, env.service (prompt_input_of s b) i = Except.ok (outs i)) :
    ∀ n inputs c fuel, inputs.length < fuel →
      decisionsOf inputs = List.replicate n "R" ++ ["Y"] →
      ((commit_loop env s b fuel inputs c).1.filter Event.isCommit
          = [Event.gitCommit (py_strip (outs (c + n)))]) ∧
      ((commit_loop env s b fuel inputs c).1.filter Event.isService
          = List.replicate (n + 1) (Event.serviceCall (prompt_input_of s b))) := by
  intro n
  induction n with
  | zero =>
    intro inputs c fuel hfuel hdec
    cases fuel with
    | zero => exact absurd hfuel (Nat.not_lt_zero _)
    | succ f =>
      have hgen := generate_ok (fun p => env.service p c) s b (outs c) hs (hSvc c)
      simp only [commit_loop]
      rw [hgen]
      dsimp only [pyStr]
      obtain ⟨rest, hpu, hdrest, hlen⟩ :=
        prompt_user_of_decisions_cons (py_strip (outs c)) inputs "Y" [] (by simpa using hdec)
      rw [hpu]
      dsimp only
      rw [if_pos rfl]
      cases hc : env.git_commit (py_strip (outs c)) with
      | ok u =>
        simp only [perform_git_commit]
        rw [hc]
        dsimp only
        constructor
        · simp [filter_map_printOut Event.isCommit (fun _ => rfl),
            filter_map_serviceCall Event.isCommit (fun _ => rfl)]
        · simp [filter_map_printOut Event.isService (fun _ => rfl),
            List.replicate]
      | error e =>
        simp only [perform_git_commit]
        rw [hc]
        dsimp only
        constructor
        · simp [filter_map_printOut Event.isCommit (fun _ => rfl),
            filter_map_serviceCall Event.isCommit (fun _ => rfl)]
        · simp [filter_map_printOut Event.isService (fun _ => rfl),
            List.replicate]
  | succ m ihm =>
    intro inputs c fuel hfuel hdec
    cases fuel with
    | zero => exact absurd hfuel (Nat.not_lt_zero _)
    | succ f =>
      have hgen := generate_ok (fun p => env.service p c) s b (outs c) hs (hSvc c)
      simp only [commit_loop]
      rw [hgen]
      dsimp only [pyStr]
      have hdec' : decisionsOf inputs = "R" :: (List.replicate m "R" ++ ["Y"]) := by
        simpa [List.replicate_succ] using hdec
      obtain ⟨rest, hpu, hdrest, hlen⟩ :=
        prompt_user_of_decisions_cons (py_strip (outs c)) inputs "R" _ hdec'
      rw [hpu]
      dsimp only
      rw [if_neg (by decide), if_neg (by decide)]
      obtain ⟨ih1, ih2⟩ := ihm rest (c + 1) f (by omega) hdrest
      have hidx : c + 1 + m = c + (m + 1) := by omega
      rw [hidx] at ih1
      constructor
      · simp [filter_map_printOut Event.isCommit (fun _ => rfl),
          filter_map_serviceCall Event.isCommit (fun _ => rfl), ih1]
      · simp [filter_map_printOut Event.isService (fun _ => rfl), ih2,
          List.replicate_succ]

lemma commit_loop_quit (env : Env) (s b : String) (outs : Nat → String)
    (hs : s ≠ "")
    (hSvc : ∀ i, env.service (prompt_input_of s b) i = Except.ok (outs i)) :
    ∀ n inputs c fuel, inputs.length < fuel →
      decisionsOf inputs = List.replicate n "R" ++ ["Q"] →
      ((commit_loop env s b fuel inputs c).2
          = LoopResult.exc (Exc.userAbortError "Aborting.")) ∧
      ((commit_loop env s b fuel inputs c).1.filter Event.isCommit = []) ∧
      ((commit_loop env s b fuel inputs c).1.filter Event.isService
          = List.replicate (n + 1) (Event.serviceCall (prompt_input_of s b))) := by
  intro n
  induction n with
  | zero =>
    intro inputs c fuel hfuel hdec
    cases fuel with
    | zero => exact absurd hfuel (Nat.not_lt_zero _)
    | succ f =>
      have hgen := generate_ok (fun p => env.service p c) s b (outs c) hs (hSvc c)
      simp only [commit_loop]
      rw [hgen]
      dsimp only [pyStr]
      obtain ⟨rest, hpu, hdrest, hlen⟩ :=
        prompt_user_of_decisions_cons (py_strip (outs c)) inputs "Q" [] (by simpa using hdec)
      rw [hpu]
      dsimp only
      rw [if_neg (by decide), if_pos rfl]
      refine ⟨rfl, ?_, ?_⟩
      · simp [filter_map_printOut Event.isCommit (fun _ => rfl),
          filter_map_serviceCall Event.isCommit (fun _ => rfl)]
      · simp [filter_map_printOut Event.isService (fun _ => rfl),
          List.replicate]
  | succ m ihm =>
    intro inputs c fuel hfuel hdec
    cases fuel with
    | zero => exact absurd hfuel (Nat.not_lt_zero _)
    | succ f =>
      have hgen := generate_ok (fun p => env.service p c) s b (outs c) hs (hSvc c)
      simp only [commit_loop]
      rw [hgen]
      dsimp only [pyStr]
      have hdec' : decisionsOf inputs = "R" :: (List.replicate m "R" ++ ["Q"]) := by
        simpa [List.replicate_succ] using hdec
      obtain ⟨rest, hpu, hdrest, hlen⟩ :=
        prompt_user_of_decisions_cons (py_strip (outs c)) inputs "R" _ hdec'
      rw [hpu]
      dsimp only
      rw [if_neg (by decide), if_neg (by decide)]
      obtain ⟨ih1, ih2, ih3⟩ := ihm rest (c + 1) f (by omega) hdrest
      refine ⟨ih1, ?_, ?_⟩
      · simp [filter_map_printOut Event.isCommit (fun _ => rfl),
          filter_map_serviceCall Event.isCommit (fun _ => rfl), ih2]
      · simp [filter_map_printOut Event.isService (fun _ => rfl), ih3,
          List.replicate_succ]

lemma commit_process_eq (env : Env) (inputs : List String) (d b : String)
    (hDiff : env.git_diff_cached = Except.ok d) (hBranch : env.git_branch = Except.ok b) :
    commit_process env inputs
      = (Event.fetchDiff :: Event.fetchBranch ::
          (commit_loop env (py_strip d) (py_strip b) (inputs.length + 1) inputs 0).1,
         (commit_loop env (py_strip d) (py_strip b) (inputs.length + 1) inputs 0).2) := by
  simp [commit_process, get_staged_changes, get_git_branch, hDiff, hBranch]

lemma main_program_of_ok (env : Env) (inputs : List String)
    (hRev : env.rev_parse_ok = true)
    (h : (commit_process env inputs).2 = LoopResult.ok) :
    main_program env inputs = ((commit_process env inputs).1, Outcome.exited 0) := by
  simp [main_program, hRev, h]

lemma main_program_of_gitErr (env : Env) (inputs : List String) (m : String)
    (hRev : env.rev_parse_ok = true)
    (h : (commit_process env inputs).2 = LoopResult.exc (Exc.gitOperationError m)) :
    main_program env inputs
      = ((commit_process env inputs).1 ++ [Event.printErr ("\nGit operation failed: " ++ m)],
         Outcome.exited 1) := by
  simp [main_program, hRev, h]

lemma main_program_of_aiErr (env : Env) (inputs : List String) (m : String)
    (hRev : env.rev_parse_ok = true)
    (h : (commit_process env inputs).2 = LoopResult.exc (Exc.aiOperationError m)) :
    main_program env inputs
      = ((commit_process env inputs).1 ++ [Event.printErr ("\nAI operation failed: " ++ m)],
         Outcome.exited 1) := by
  simp [main_program, hRev, h]

lemma main_program_of_userAbort (env : Env) (inputs : List String) (m : String)
    (hRev : env.rev_parse_ok = true)
    (h : (commit_process env inputs).2 = LoopResult.exc (Exc.userAbortError m)) :
    main_program env inputs
      = ((commit_process env inputs).1 ++ [Event.printOut m], Outcome.exited 0) := by
  simp [main_program, hRev, h]

lemma main_program_of_openAIErr (env : Env) (inputs : List String) (m : String)
    (hRev : env.rev_parse_ok = true)
    (h : (commit_process env inputs).2 = LoopResult.exc (Exc.openAIError m)) :
    main_program env inputs
      = ((commit_process env inputs).1
           ++ [Event.printErr ("An unexpected error has occured: " ++ m)],
         Outcome.exited 1) := by
  simp [main_program, hRev, h]

lemma main_program_of_blocked (env : Env) (inputs : List String)
    (hRev : env.rev_parse_ok = true)
    (h : (commit_process env inputs).2 = LoopResult.blocked) :
    main_program env inputs = ((commit_process env inputs).1, Outcome.blocked) := by
  simp [main_program, hRev, h]

lemma main_program_of_noRepo (env : Env) (inputs : List String)
    (hRev : env.rev_parse_ok = false) :
    main_program env inputs
      = ([Event.printErr "\nNot in a git repository. Aborting."], Outcome.exited 1) := by
  simp [main_program, hRev]

lemma main_program_tail (env : Env) (inputs : List String)
    (hRev : env.rev_parse_ok = true) :
    ∃ tail, (main_program env inputs).1 = (commit_process env inputs).1 ++ tail ∧
      tail.filter Event.isCommit = [] ∧ tail.filter Event.isService = [] ∧
      tail.filter Event.isFetch = [] := by
  rcases hr : (commit_process env inputs).2 with _ | e | _
  · exact ⟨[], by rw [main_program_of_ok env inputs hRev hr]; simp, rfl, rfl, rfl⟩
  · cases e with
    | gitOperationError m =>
      exact ⟨[Event.printErr ("\nGit operation failed: " ++ m)],
        by rw [main_program_of_gitErr env inputs m hRev hr], by simp, by simp, by simp⟩
    | aiOperationError m =>
      exact ⟨[Event.printErr ("\nAI operation failed: " ++ m)],
        by rw [main_program_of_aiErr env inputs m hRev hr], by simp, by simp, by simp⟩
    | userAbortError m =>
      exact ⟨[Event.printOut m],
        by rw [main_program_of_userAbort env inputs m hRev hr], by simp, by simp, by simp⟩
    | openAIError m =>
      exact ⟨[Event.printErr ("An unexpected error has occured: " ++ m)],
        by rw [main_program_of_openAIErr env inputs m hRev hr], by simp, by simp, by simp⟩
  · exact ⟨[], by rw [main_program_of_blocked env inputs hRev hr]; simp, rfl, rfl, rfl⟩

/-! ## Claim theorems -/

/-- Claim C1: for every run inside a repository with a non-empty staged
diff, a working service, and a decision sequence of any number of
regenerate decisions followed by accept, the commit command is invoked
exactly once, with the (trimmed) message produced by the most recent
service call — the one for the `n`-th regeneration; the service is
called exactly `n + 1` times. -/
theorem accept_commits_exactly_once_with_latest_message
    (env : Env) (inputs : List String) (n : Nat) (outs : Nat → String)
    (diffOut branchOut : String)
    (hRev : env.rev_parse_ok = true)
    (hDiff : env.git_diff_cached = Except.ok diffOut)
    (hBranch : env.git_branch = Except.ok branchOut)
    (hNE : py_strip diffOut ≠ "")
    (hSvc : ∀ i, env.service (prompt_input_of (py_strip diffOut) (py_strip branchOut)) i
        = Except.ok (outs i))
    (hDec : decisionsOf inputs = List.replicate n "R" ++ ["Y"]) :
    ((main_program env inputs).1.filter Event.isCommit
        = [Event.gitCommit (py_strip (outs n))]) ∧
    ((main_program env inputs).1.filter Event.isService
        = List.replicate (n + 1)
            (Event.serviceCall (prompt_input_of (py_strip diffOut) (py_strip branchOut)))) := by
  obtain ⟨hA, hS⟩ := commit_loop_accept env (py_strip diffOut) (py_strip branchOut) outs hNE
      hSvc n inputs 0 (inputs.length + 1) (Nat.lt_succ_self _) hDec
  rw [Nat.zero_add] at hA
  obtain ⟨tail, htr, htc, hts, _⟩ := main_program_tail env inputs hRev
  rw [commit_process_eq env inputs diffOut branchOut hDiff hBranch] at htr
  rw [htr]
  constructor
  · simp [List.filter_append, htc, hA]
  · simp [List.filter_append, hts, hS]

/-- Witness for C1: diff `"+x\n"`, branch `"main\n"`, inputs one invalid
token, one regenerate, one accept: the commit is `sample_outs 1` (the
second service response) and the service was called twice. -/
theorem accept_commits_exactly_once_with_latest_message_witness :
    ((main_program env_ok ["bad", "r", "y"]).1.filter Event.isCommit
        = [Event.gitCommit (py_strip (sample_outs 1))]) ∧
    ((main_program env_ok ["bad", "r", "y"]).1.filter Event.isService
        = List.replicate 2
            (Event.serviceCall (prompt_input_of (py_strip "+x\n") (py_strip "main\n")))) :=
  accept_commits_exactly_once_with_latest_message env_ok ["bad", "r", "y"] 1 sample_outs
    "+x\n" "main\n" rfl rfl rfl (by decide) (fun _ => rfl) (by decide)

/-- Claim C2 evidence (code bug): on a service-side failure with a
non-empty staged diff, line 80 of `main.py` wraps the diagnostic in
`OpenAIError` — not in the custom `AIOperationError` (the class whose own
docstring says it is for OpenAI related issues, and which the spec calls
`GenerationError`).  Exactly one service call is made (no internal retry),
and the failure is reported by the generic `except Exception` handler
("An unexpected error has occured: ...") rather than by the dedicated
`except AIOperationError` handler ("AI operation failed: ..."), though the
exit code is still 1. -/
theorem service_failure_raises_openai_error_not_custom :
    ((generate_commit_msg (fun p => env_auth_failure.service p 0) "+x" "main").1
        = Except.error
            (Exc.openAIError "Error generating commit message from AI: 401 Unauthorized")) ∧
    ((generate_commit_msg (fun p => env_auth_failure.service p 0) "+x" "main").2.length
        = 1) ∧
    ((commit_process env_auth_failure ["Y"]).2
        = LoopResult.exc
            (Exc.openAIError "Error generating commit message from AI: 401 Unauthorized")) ∧
    ((main_program env_auth_failure ["Y"]).2 = Outcome.exited 1) ∧
    ((main_program env_auth_failure ["Y"]).1.filter Event.isErr
        = [Event.printErr
            "An unexpected error has occured: Error generating commit message from AI: 401 Unauthorized"]) := by
  decide

/-- Counterexample for C3: after the invalid token `"x"`, the banner
header line is printed a second time — the code re-displays the full
message banner on every iteration of `prompt_user`, contradicting the
claim that the prompt is re-displayed "without re-displaying the message
banner". -/
theorem invalid_input_redisplays_banner_counterexample :
    (is_valid_choice (normalize_input "x") = false) ∧
    ((prompt_user "msg" ["x", "y"]).1.count "\nGenerated commit message:" = 2) ∧
    ((prompt_user "msg" ["x", "y"]).2 = some ("Y", [])) := by
  decide

/-- Claim C3 (amended): on an invalid decision token the loop re-displays
the message banner *and* the input prompt (plus an error line), the loop
state does not change — the decision outcome is exactly that of the
remaining input lines, so no generation or commit can be triggered by the
invalid token — and the loop exits `Prompting` only on a valid token. -/
theorem invalid_input_reprompts_without_state_change
    (message line : String) (rest : List String)
    (hv : is_valid_choice (normalize_input line) = false) :
    ((prompt_user message (line :: rest)).2 = (prompt_user message rest).2) ∧
    ((prompt_user message (line :: rest)).1
      = banner_lines message
          ++ [input_prompt, "Invalid input. Please enter Y, R, or Q."]
          ++ (prompt_user message rest).1) ∧
    (∀ d r, (prompt_user message (line :: rest)).2 = some (d, r) →
      is_valid_choice d = true) := by
  rw [prompt_user_invalid_head message line rest hv]
  refine ⟨rfl, rfl, ?_⟩
  intro d r h
  induction rest with
  | nil => simp [prompt_user] at h
  | cons l tl ih =>
    by_cases hvl : is_valid_choice (normalize_input l) = true
    · rw [prompt_user_valid_head message l tl hvl] at h
      simp only [Option.some.injEq, Prod.mk.injEq] at h
      rw [← h.1]
      exact hvl
    · rw [Bool.not_eq_true] at hvl
      rw [prompt_user_invalid_head message l tl hvl] at h
      exact ih h

/-- Witness for C3 (amended), at message `"msg"`, invalid token `"x"`,
remaining input `["y"]`. -/
theorem invalid_input_reprompts_without_state_change_witness :
    ((prompt_user "msg" ["x", "y"]).2 = (prompt_user "msg" ["y"]).2) ∧
    ((prompt_user "msg" ["x", "y"]).1
      = banner_lines "msg"
          ++ [input_prompt, "Invalid input. Please enter Y, R, or Q."]
          ++ (prompt_user "msg" ["y"]).1) ∧
    (∀ d r, (prompt_user "msg" ["x", "y"]).2 = some (d, r) →
      is_valid_choice d = true) :=
  invalid_input_reprompts_without_state_change "msg" "x" ["y"] (by decide)

/-- Claim C4: with an empty staged diff, `generate_commit_msg` fails with
`AIOperationError` ("No changes staged to commit. Nothing to generate a
message for.") and the service call log is empty — the external service
is never contacted, whatever the service and the branch argument. -/
theorem empty_diff_fails_without_service_call
    (service : String → Except String String) (branch_name : String) :
    generate_commit_msg service "" branch_name
      = (Except.error (Exc.aiOperationError
          "No changes staged to commit. Nothing to generate a message for."), []) := by
  simp [generate_commit_msg]

/-- Claim C5: in every run that reaches the generate/prompt loop, the
staged diff and the branch name are each fetched exactly once, before the
loop (the trace starts with the two fetch events and contains no other
fetch event), and every service call in the run — however many regenerate
decisions occur — carries the same input string built from the
snapshotted (diff, branch) pair; only the message changes. -/
theorem diff_and_branch_fetched_once_before_loop
    (env : Env) (inputs : List String) (diffOut branchOut : String)
    (hRev : env.rev_parse_ok = true)
    (hDiff : env.git_diff_cached = Except.ok diffOut)
    (hBranch : env.git_branch = Except.ok branchOut) :
    ∃ rest, (main_program env inputs).1 = Event.fetchDiff :: Event.fetchBranch :: rest ∧
      rest.filter Event.isFetch = [] ∧
      ∃ k, (main_program env inputs).1.filter Event.isService
          = List.replicate k
              (Event.serviceCall (prompt_input_of (py_strip diffOut) (py_strip branchOut))) := by
  obtain ⟨tail, htr, _, hts, htf⟩ := main_program_tail env inputs hRev
  rw [commit_process_eq env inputs diffOut branchOut hDiff hBranch] at htr
  obtain ⟨hf, _, ⟨k, hs⟩, _⟩ := commit_loop_trace_shape env (py_strip diffOut)
      (py_strip branchOut) (inputs.length + 1) inputs 0
  refine ⟨(commit_loop env (py_strip diffOut) (py_strip branchOut)
      (inputs.length + 1) inputs 0).1 ++ tail, ?_, ?_, ⟨k, ?_⟩⟩
  · rw [htr]; simp
  · simp [List.filter_append, hf, htf]
  · rw [htr]; simp [List.filter_append, hs, hts]

/-- Witness for C5, at a run with two regenerate decisions and a quit. -/
theorem diff_and_branch_fetched_once_before_loop_witness :
    ∃ rest, (main_program env_ok ["r", "r", "q"]).1
        = Event.fetchDiff :: Event.fetchBranch :: rest ∧
      rest.filter Event.isFetch = [] ∧
      ∃ k, (main_program env_ok ["r", "r", "q"]).1.filter Event.isService
          = List.replicate k
              (Event.serviceCall (prompt_input_of (py_strip "+x\n") (py_strip "main\n"))) :=
  diff_and_branch_fetched_once_before_loop env_ok ["r", "r", "q"] "+x\n" "main\n" rfl rfl rfl

/-- Claim C6: for every decision sequence of any number of regenerates
followed by quit, the commit command is never invoked, the process exits
with code 0, nothing is written to the error stream, and the
informational message "Aborting." is written to standard output. -/
theorem quit_never_commits_and_exits_zero
    (env : Env) (inputs : List String) (n : Nat) (outs : Nat → String)
    (diffOut branchOut : String)
    (hRev : env.rev_parse_ok = true)
    (hDiff : env.git_diff_cached = Except.ok diffOut)
    (hBranch : env.git_branch = Except.ok branchOut)
    (hNE : py_strip diffOut ≠ "")
    (hSvc : ∀ i, env.service (prompt_input_of (py_strip diffOut) (py_strip branchOut)) i
        = Except.ok (outs i))
    (hDec : decisionsOf inputs = List.replicate n "R" ++ ["Q"]) :
    ((main_program env inputs).2 = Outcome.exited 0) ∧
    ((main_program env inputs).1.filter Event.isCommit = []) ∧
    ((main_program env inputs).1.filter Event.isErr = []) ∧
    Event.printOut "Aborting." ∈ (main_program env inputs).1 := by
  obtain ⟨hres, hcom, _⟩ := commit_loop_quit env (py_strip diffOut) (py_strip branchOut)
      outs hNE hSvc n inputs 0 (inputs.length + 1) (Nat.lt_succ_self _) hDec
  have hcp2 : (commit_process env inputs).2
      = LoopResult.exc (Exc.userAbortError "Aborting.") := by
    rw [commit_process_eq env inputs diffOut branchOut hDiff hBranch]
    exact hres
  obtain ⟨_, he, _, _⟩ := commit_loop_trace_shape env (py_strip diffOut)
      (py_strip branchOut) (inputs.length + 1) inputs 0
  rw [main_program_of_userAbort env inputs "Aborting." hRev hcp2]
  refine ⟨rfl, ?_, ?_, ?_⟩
  · rw [commit_process_eq env inputs diffOut branchOut hDiff hBranch]
    simp [List.filter_append, hcom]
  · rw [commit_process_eq env inputs diffOut branchOut hDiff hBranch]
    simp [List.filter_append, he]
  · simp

/-- Witness for C6, at a run with an invalid token, one regenerate and a
quit. -/
theorem quit_never_commits_and_exits_zero_witness :
    ((main_program env_ok ["x", "r", "q"]).2 = Outcome.exited 0) ∧
    ((main_program env_ok ["x", "r", "q"]).1.filter Event.isCommit = []) ∧
    ((main_program env_ok ["x", "r", "q"]).1.filter Event.isErr = []) ∧
    Event.printOut "Aborting." ∈ (main_program env_ok ["x", "r", "q"]).1 :=
  quit_never_commits_and_exits_zero env_ok ["x", "r", "q"] 1 sample_outs "+x\n" "main\n"
    rfl rfl rfl (by decide) (fun _ => rfl) (by decide)

/-- Claim C8: when the "is inside work tree" check fails, the process
exits with code 1 immediately: the whole trace is the single error-stream
message, so neither the staged diff nor the branch is ever fetched. -/
theorem work_tree_check_fails_exits_before_fetch
    (env : Env) (inputs : List String) (hRev : env.rev_parse_ok = false) :
    (main_program env inputs
      = ([Event.printErr "\nNot in a git repository. Aborting."], Outcome.exited 1)) ∧
    ((main_program env inputs).1.filter Event.isFetch = []) := by
  refine ⟨main_program_of_noRepo env inputs hRev, ?_⟩
  rw [main_program_of_noRepo env inputs hRev]
  rfl

/-- Witness for C8. -/
theorem work_tree_check_fails_exits_before_fetch_witness :
    (main_program env_no_repo ["y"]
      = ([Event.printErr "\nNot in a git repository. Aborting."], Outcome.exited 1)) ∧
    ((main_program env_no_repo ["y"]).1.filter Event.isFetch = []) :=
  work_tree_check_fails_exits_before_fetch env_no_repo ["y"] rfl

/-- Claim C7: the process exit code is 0 exactly when the run ends in a
successful commit (`commit_process` returns normally, which happens only
after `git commit` succeeded on some message in the trace) or in a
user-initiated quit (`UserAbortError`); every other terminating run —
repository error, generation error, the "not a repository" guard, or the
unexpected-exception safety net — exits 1 with a diagnostic on the error
stream. -/
theorem exit_code_zero_iff_commit_or_quit (env : Env) (inputs : List String) :
    ((main_program env inputs).2 = Outcome.exited 0 ↔
      env.rev_parse_ok = true ∧
        ((commit_process env inputs).2 = LoopResult.ok ∨
          ∃ m, (commit_process env inputs).2 = LoopResult.exc (Exc.userAbortError m))) ∧
    ((commit_process env inputs).2 = LoopResult.ok →
      ∃ msg, Event.gitCommit msg ∈ (commit_process env inputs).1 ∧
        env.git_commit msg = Except.ok ()) ∧
    ((main_program env inputs).2 = Outcome.exited 1 →
      ∃ m, Event.printErr m ∈ (main_program env inputs).1) := by
  have hok : (commit_process env inputs).2 = LoopResult.ok →
      ∃ msg, Event.gitCommit msg ∈ (commit_process env inputs).1 ∧
        env.git_commit msg = Except.ok () := by
    intro h
    cases hd : env.git_diff_cached with
    | error e => simp [commit_process, get_staged_changes, hd] at h
    | ok d =>
      cases hb : env.git_branch with
      | error e =>
        simp [commit_process, get_staged_changes, get_git_branch, hd, hb] at h
      | ok b =>
        rw [commit_process_eq env inputs d b hd hb] at h ⊢
        obtain ⟨_, _, _, h4⟩ := commit_loop_trace_shape env (py_strip d) (py_strip b)
            (inputs.length + 1) inputs 0
        obtain ⟨msg, hmem, hcmt⟩ := h4 h
        exact ⟨msg, by simp [hmem], hcmt⟩
  refine ⟨?_, hok, ?_⟩
  · cases hrev : env.rev_parse_ok with
    | false => rw [main_program_of_noRepo env inputs hrev]; simp
    | true =>
      rcases hr : (commit_process env inputs).2 with _ | e | _
      · rw [main_program_of_ok env inputs hrev hr]; simp [hr]
      · cases e with
        | gitOperationError m =>
          rw [main_program_of_gitErr env inputs m hrev hr]; simp [hr]
        | aiOperationError m =>
          rw [main_program_of_aiErr env inputs m hrev hr]; simp [hr]
        | userAbortError m =>
          rw [main_program_of_userAbort env inputs m hrev hr]
          simp [hr]
        | openAIError m =>
          rw [main_program_of_openAIErr env inputs m hrev hr]; simp [hr]
      · rw [main_program_of_blocked env inputs hrev hr]; simp [hr]
  · cases hrev : env.rev_parse_ok with
    | false =>
      intro _
      rw [main_program_of_noRepo env inputs hrev]
      exact ⟨"\nNot in a git repository. Aborting.", by simp⟩
    | true =>
      rcases hr : (commit_process env inputs).2 with _ | e | _
      · rw [main_program_of_ok env inputs hrev hr]; intro h; simp at h
      · cases e with
        | gitOperationError m =>
          intro _
          rw [main_program_of_gitErr env inputs m hrev hr]
          exact ⟨"\nGit operation failed: " ++ m, by simp⟩
        | aiOperationError m =>
          intro _
          rw [main_program_of_aiErr env inputs m hrev hr]
          exact ⟨"\nAI operation failed: " ++ m, by simp⟩
        | userAbortError m =>
          rw [main_program_of_userAbort env inputs m hrev hr]; intro h; simp at h
        | openAIError m =>
          intro _
          rw [main_program_of_openAIErr env inputs m hrev hr]
          exact ⟨"An unexpected error has occured: " ++ m, by simp⟩
      · rw [main_program_of_blocked env inputs hrev hr]; intro h; simp at h

/-- Witness for C7: in a non-repository, the run exits 1 and a
diagnostic is on the error stream. -/
theorem exit_code_zero_iff_commit_or_quit_witness :
    ∃ m, Event.printErr m ∈ (main_program env_no_repo []).1 :=
  (exit_code_zero_iff_commit_or_quit env_no_repo []).2.2 (by decide)

/-- Claim C9: `prompt_user` only ever returns a decision from the closed
set {"Y", "R", "Q"}, and the raw line is stripped of surrounding
whitespace and upper-cased before the comparison, so lowercase or padded
forms of the three tokens are accepted as decisions. -/
theorem prompt_user_returns_only_valid_decisions (message : String) :
    (∀ inputs d rest, (prompt_user message inputs).2 = some (d, rest) →
      d = "Y" ∨ d = "R" ∨ d = "Q") ∧
    (∀ line rest, is_valid_choice (normalize_input line) = true →
      (prompt_user message (line :: rest)).2 = some (normalize_input line, rest)) := by
  constructor
  · intro inputs
    induction inputs with
    | nil => intro d rest h; simp [prompt_user] at h
    | cons line tl ih =>
      intro d rest h
      by_cases hv : is_valid_choice (normalize_input line) = true
      · rw [prompt_user_valid_head message line tl hv] at h
        simp only [Option.some.injEq, Prod.mk.injEq] at h
        exact h.1 ▸ is_valid_choice_cases hv
      · rw [Bool.not_eq_true] at hv
        rw [prompt_user_invalid_head message line tl hv] at h
        exact ih d rest h
  · intro line rest hv
    rw [prompt_user_valid_head message line rest hv]

/-- Witness for C9: the padded lowercase line `" y "` is accepted as the
decision `"Y"`. -/
theorem prompt_user_returns_only_valid_decisions_witness :
    ((prompt_user "msg" [" y "]).2 = some (normalize_input " y ", [])) ∧
    (normalize_input " y " = "Y") :=
  ⟨(prompt_user_returns_only_valid_decisions "msg").2 " y " [] (by decide), by decide⟩

/-- A stand-in service used by the C10 witness. -/
def sample_service : String → Except String String :=
  fun _ => Except.ok " feat: x - main "

/-- Claim C10: despite the declared return type `str | None`,
`generate_commit_msg` never returns `None`: whenever it returns normally,
the payload is `some` of the service output trimmed of surrounding
whitespace (on every other path it raises), so its callers never receive
`None` as the message. -/
theorem generate_never_returns_none
    (service : String → Except String String) (changes branch_name : String)
    (v : Option String)
    (h : (generate_commit_msg service changes branch_name).1 = Except.ok v) :
    ∃ s, v = some s ∧ ∃ raw, service (prompt_input_of changes branch_name) = Except.ok raw
      ∧ s = py_strip raw := by
  by_cases hc : changes = ""
  · rw [hc] at h
    simp [generate_commit_msg] at h
  · cases hs : service (prompt_input_of changes branch_name) with
    | ok raw =>
      rw [generate_ok service changes branch_name raw hc hs] at h
      simp only [Except.ok.injEq] at h
      exact ⟨py_strip raw, h.symm, raw, rfl, rfl⟩
    | error e =>
      simp [generate_commit_msg, hc, hs] at h

/-- Witness for C10. -/
theorem generate_never_returns_none_witness :
    ∃ s, (some (py_strip " feat: x - main ") : Option String) = some s ∧
      ∃ raw, sample_service (prompt_input_of "+x" "main") = Except.ok raw
        ∧ s = py_strip raw :=
  generate_never_returns_none sample_service "+x" "main"
    (some (py_strip " feat: x - main ")) (by decide)
